import Mathlib

set_option maxHeartbeats 1000000
set_option maxRecDepth 4000

/- Shallow embedding of the GitHub tracker sync program (src/sync.py).
   Python strings are modelled by Lean `String`, Python dicts by association
   lists whose lookup returns the newest binding, and the remote snapshot's
   tracker map by an association list from tracker id to issue summary.
   The regular-expression matches of the source are modelled by explicit
   character-list pattern matching on line contents.  File lines are
   modelled without their trailing newline characters. -/

namespace Tracker

/-- Python whitespace class, as used by str.strip and the regex class \s. -/
def pyWS (c : Char) : Bool :=
  c == ' ' || c == '\t' || c == '\n' || c == '\r' || c == '\x0b' || c == '\x0c'

/-- Python str.strip on a character list. -/
def stripChars (l : List Char) : List Char :=
  ((l.dropWhile pyWS).reverse.dropWhile pyWS).reverse

/-- Python str.strip. -/
def pyStrip (s : String) : String := String.mk (stripChars s.data)

/-- A line consisting only of whitespace, i.e. Python line.strip() == ''. -/
def isBlank (l : String) : Bool := l.data.all pyWS

/-- Python regex word character (ASCII fragment of \w). -/
def wordChar (c : Char) : Bool := c.isAlphanum || c == '_'

/-- Python str.split with a one-character separator, accumulating the
current piece in reverse. -/
def splitCharGo (sep : Char) : List Char → List Char → List String
  | [], acc => [String.mk acc.reverse]
  | c :: cs, acc =>
    if c == sep then String.mk acc.reverse :: splitCharGo sep cs []
    else splitCharGo sep cs (c :: acc)

/-- Python str.split(sep) for a one-character separator; ''.split(sep) = ['']. -/
def pySplitChar (sep : Char) (s : String) : List String :=
  splitCharGo sep s.data []

/-- Drop pat as a prefix of l, or fail. -/
def dropPre : List Char → List Char → Option (List Char)
  | [], l => some l
  | _ :: _, [] => none
  | p :: ps, c :: cs => if p == c then dropPre ps cs else none

/-- Python str.replace on character lists: leftmost non-overlapping
occurrences, driven by a fuel that the list length bounds for non-empty
patterns. -/
def replaceGo (pat new : List Char) : Nat → List Char → List Char
  | 0, l => l
  | fuel + 1, l =>
    match l with
    | [] => []
    | c :: cs =>
      match dropPre pat l with
      | some rest => new ++ replaceGo pat new fuel rest
      | none => c :: replaceGo pat new fuel cs

/-- Python str.replace(pat, new), every occurrence. -/
def pyReplace (s pat new : String) : String :=
  String.mk (replaceGo pat.data new.data s.data.length s.data)

/-- SECTION_PATTERN r'^## (.+)$', returning the captured heading stripped. -/
def matchSection (l : String) : Option String :=
  match l.data with
  | '#' :: '#' :: ' ' :: rest =>
      if rest.isEmpty then none else some (pyStrip (String.mk rest))
  | _ => none

/-- TASK_PATTERN r'^- \[([ x])\] (.+?)$', returning (checked, stripped title). -/
def matchTask (l : String) : Option (Bool × String) :=
  match l.data with
  | '-' :: ' ' :: '[' :: ' ' :: ']' :: ' ' :: rest =>
      if rest.isEmpty then none else some (false, pyStrip (String.mk rest))
  | '-' :: ' ' :: '[' :: 'x' :: ']' :: ' ' :: rest =>
      if rest.isEmpty then none else some (true, pyStrip (String.mk rest))
  | _ => none

/-- FIELD_PATTERN r'^\s+(\w+):\s*(.*)$', returning (key, value.strip()). -/
def matchField (l : String) : Option (String × String) :=
  if (l.data.takeWhile pyWS).isEmpty then none
  else
    let rest := l.data.dropWhile pyWS
    let key := rest.takeWhile wordChar
    if key.isEmpty then none
    else
      match rest.dropWhile wordChar with
      | ':' :: rest3 => some (String.mk key, pyStrip (String.mk rest3))
      | _ => none

/-- The rewriters' id-line pattern r'\s+id:\s*(.+)$' with group(1).strip(). -/
def matchIdValue (l : String) : Option String :=
  if (l.data.takeWhile pyWS).isEmpty then none
  else
    match l.data.dropWhile pyWS with
    | 'i' :: 'd' :: ':' :: rest3 =>
        if rest3.isEmpty then none else some (pyStrip (String.mk rest3))
    | _ => none

/-- The rewriter's github-line pattern r'\s+github:\s*'. -/
def isGithubLine (l : String) : Bool :=
  !(l.data.takeWhile pyWS).isEmpty &&
    match l.data.dropWhile pyWS with
    | 'g' :: 'i' :: 't' :: 'h' :: 'u' :: 'b' :: ':' :: _ => true
    | _ => false

/-- A parsed local task record, one element of TrackerParser.parse's output. -/
structure Task where
  checked : Bool
  title : String
  «section» : Option String
  metadata : List (String × String)
  raw_lines : List String
deriving DecidableEq

/-- A remote issue summary as stored in the snapshot's tracker map. -/
structure Issue where
  number : Nat
  title : String
  state : String
  labels : List String
  milestone : Option String
  node_id : String
deriving DecidableEq

/-- The tracker-id to issue-summary mapping of the remote snapshot. -/
abbrev TrackerMap := List (String × Issue)

/-- Python dict assignment d[k] = v; lookup finds the newest binding. -/
def dictSet (d : List (String × String)) (k v : String) : List (String × String) :=
  (k, v) :: d

/-- Python d.get(k, default). -/
def dictGet (d : List (String × String)) (k default : String) : String :=
  match d.lookup k with
  | some v => v
  | none => default

/-- A freshly started task record at a task line. -/
def mkTask (ck : Bool) (ti : String) (sec : Option String) (l : String) : Task :=
  { checked := ck, title := ti, «section» := sec, metadata := [], raw_lines := [l] }

/-- Folding a metadata line into the current task. -/
def addField (t : Task) (k v l : String) : Task :=
  { t with metadata := dictSet t.metadata k v, raw_lines := t.raw_lines ++ [l] }

/-- Folding a blank line into the current task. -/
def addBlank (t : Task) (l : String) : Task :=
  { t with raw_lines := t.raw_lines ++ [l] }

/-- The line loop of TrackerParser.parse, carried over the remaining lines
with the current section and the task under construction. -/
def parseGo : List String → Option String → Option Task → List Task
  | [], _, none => []
  | [], _, some t => [t]
  | l :: ls, sec, cur =>
    match matchSection l with
    | some s => parseGo ls (some s) cur
    | none =>
      match matchTask l with
      | some (ck, ti) =>
        (match cur with | some t => [t] | none => []) ++
          parseGo ls sec (some (mkTask ck ti sec l))
      | none =>
        match cur with
        | some t =>
          match matchField l with
          | some (k, v) => parseGo ls sec (some (addField t k v l))
          | none =>
            if isBlank l then parseGo ls sec (some (addBlank t l))
            else parseGo ls sec (some t)
        | none => parseGo ls sec none

/-- TrackerParser.parse: content is split on newlines and folded line by line. -/
def TrackerParser.parse (content : String) : List Task :=
  parseGo (pySplitChar '\n' content) none none

/-- The needs_update dict assembled by Sync.compute_diff for one task. -/
structure Updates where
  title : Option String
  labels : Option (List String)
  milestone : Option String
  state : Option String
deriving DecidableEq

/-- Python truthiness of the needs_update dict (if needs_update:). -/
def Updates.isEmpty (u : Updates) : Bool :=
  u.title.isNone && u.labels.isNone && u.milestone.isNone && u.state.isNone

/-- A change produced by the diff engine. -/
inductive Change where
  | create (task : Task) (task_id : String)
  | update (task_id : String) (github_number : Nat) (updates : Updates)
deriving DecidableEq

/-- A consistency warning printed by the diff engine. -/
inductive Warning where
  | noId (title : String)
  | notFound (task_id : String) (github_num : String)
deriving DecidableEq

/-- The labels entry of an update change, none for creates. -/
def Change.labelsUpdate : Change → Option (List String)
  | .update _ _ u => u.labels
  | .create _ _ => none

/-- The milestone entry of an update change, none for creates. -/
def Change.milestoneUpdate : Change → Option String
  | .update _ _ u => u.milestone
  | .create _ _ => none

/-- The field-comparison block of Sync.compute_diff for a resolved issue.
The labels value is Python's list(set(raw split)); since Python leaves the
set's iteration order unspecified we fix the representative as the raw
split list deduplicated in first-occurrence order. -/
def Sync.needs_update (t : Task) (issue : Issue) : Updates :=
  { title := if t.title = issue.title then none else some t.title
    labels :=
      if ((pySplitChar ',' (dictGet t.metadata "labels" "")).toFinset : Finset String)
          = issue.labels.toFinset then none
      else some (pySplitChar ',' (dictGet t.metadata "labels" "")).eraseDups
    milestone :=
      if issue.milestone = some (dictGet t.metadata "milestone" "") then none
      else some (dictGet t.metadata "milestone" "")
    state :=
      if t.checked = true ∧ ¬ issue.state = "closed" then some "closed"
      else if t.checked = false ∧ issue.state = "closed" then some "open"
      else none }

/-- The change list produced by Sync.compute_diff's task loop. -/
def Sync.compute_diff_changes : List Task → TrackerMap → List Change
  | [], _ => []
  | t :: rest, m =>
    if t.«section» = some "IDEAS" then Sync.compute_diff_changes rest m
    else if dictGet t.metadata "id" "" = "" then Sync.compute_diff_changes rest m
    else if pyStrip (dictGet t.metadata "github" "") = "" then
      Change.create t (dictGet t.metadata "id" "") :: Sync.compute_diff_changes rest m
    else
      match m.lookup (dictGet t.metadata "id" "") with
      | none => Sync.compute_diff_changes rest m
      | some issue =>
        if (Sync.needs_update t issue).isEmpty then Sync.compute_diff_changes rest m
        else Change.update (dictGet t.metadata "id" "") issue.number
               (Sync.needs_update t issue) :: Sync.compute_diff_changes rest m

/-- The warnings printed by Sync.compute_diff's task loop. -/
def Sync.compute_diff_warnings : List Task → TrackerMap → List Warning
  | [], _ => []
  | t :: rest, m =>
    if t.«section» = some "IDEAS" then Sync.compute_diff_warnings rest m
    else if dictGet t.metadata "id" "" = "" then
      Warning.noId t.title :: Sync.compute_diff_warnings rest m
    else if pyStrip (dictGet t.metadata "github" "") = "" then
      Sync.compute_diff_warnings rest m
    else
      match m.lookup (dictGet t.metadata "id" "") with
      | none => Warning.notFound (dictGet t.metadata "id" "")
                  (pyStrip (dictGet t.metadata "github" "")) :: Sync.compute_diff_warnings rest m
      | some _ => Sync.compute_diff_warnings rest m

/-- Sync.compute_diff: the emitted change list and the emitted warnings. -/
def Sync.compute_diff (tasks : List Task) (m : TrackerMap) : List Change × List Warning :=
  (Sync.compute_diff_changes tasks m, Sync.compute_diff_warnings tasks m)

/-- The data dict assembled by GitHubAPI.update_issue (the partial patch). -/
structure IssuePatch where
  title : Option String
  body : Option String
  labels : Option (List String)
  milestone : Option Nat
  state : Option String
deriving DecidableEq

/-- Python truthiness filter for an optional string argument (if title:). -/
def pyTruthy : Option String → Option String
  | some s => if s = "" then none else some s
  | none => none

/-- GitHubAPI.update_issue: which fields end up in the submitted data dict. -/
def GitHubAPI.update_issue (title body : Option String) (labels : Option (List String))
    (milestone : Option Nat) (state : Option String) : IssuePatch :=
  { title := pyTruthy title
    body := pyTruthy body
    labels := labels
    milestone := milestone
    state := pyTruthy state }

/-- Sync.update_issue_on_github: the patch submitted for one update change,
given the run's milestone-title-to-number map. -/
def Sync.update_issue_on_github (milestone_map : List (String × Nat)) (u : Updates) : IssuePatch :=
  let milestone_num :=
    match u.milestone with
    | some name => milestone_map.lookup name
    | none => none
  GitHubAPI.update_issue u.title none u.labels milestone_num u.state

/-- An action emitted by the pull detector. -/
structure UIChange where
  task_id : String
  action : String
deriving DecidableEq

/-- Sync.detect_ui_changes: remote-origin checkbox transitions. -/
def Sync.detect_ui_changes (m : TrackerMap) : List Task → List UIChange
  | [] => []
  | t :: rest =>
    if dictGet t.metadata "id" "" = "" ∨ t.«section» = some "IDEAS" then
      Sync.detect_ui_changes m rest
    else
      match m.lookup (dictGet t.metadata "id" "") with
      | none => Sync.detect_ui_changes m rest
      | some issue =>
        if issue.state = "closed" ∧ t.checked = false then
          UIChange.mk (dictGet t.metadata "id" "") "mark_done" :: Sync.detect_ui_changes m rest
        else if issue.state = "open" ∧ t.checked = true then
          UIChange.mk (dictGet t.metadata "id" "") "mark_todo" :: Sync.detect_ui_changes m rest
        else Sync.detect_ui_changes m rest

/-- Whether a line matches TASK_PATTERN. -/
def isTaskLine (l : String) : Bool := (matchTask l).isSome

/-- The checkbox flip applied by Sync.update_tracker; str.replace rewrites
every occurrence in the line. -/
def flipLine (action l : String) : String :=
  if action = "mark_done" then pyReplace l "[ ]" "[x]"
  else if action = "mark_todo" then pyReplace l "[x]" "[ ]"
  else l

/-- The backward scan for j in range(i-1, -1, -1) to the nearest task line. -/
def findTaskBack (lines : List String) : Nat → Option Nat
  | 0 => if isTaskLine (lines.getD 0 "") then some 0 else none
  | j + 1 =>
    if isTaskLine (lines.getD (j + 1) "") then some (j + 1)
    else findTaskBack lines j

/-- Flip the nearest task line strictly before index i, as the inner loop of
Sync.update_tracker does; for i = 0 the Python range is empty. -/
def applyFlipBack (lines : List String) (i : Nat) (action : String) : List String :=
  if i = 0 then lines
  else
    match findTaskBack lines (i - 1) with
    | some j => lines.set j (flipLine action (lines.getD j ""))
    | none => lines

/-- The line loop of Sync.update_tracker: at every line the current id is
refreshed and every matching pending change re-applies its backward flip.
The fuel equals the line count; flips preserve the list length. -/
def updateTrackerGo (changes : List UIChange) :
    Nat → Nat → Option String → List String → List String
  | 0, _, _, lines => lines
  | fuel + 1, i, cid, lines =>
    if i < lines.length then
      let cid2 :=
        match matchIdValue (lines.getD i "") with
        | some v => some v
        | none => cid
      let lines2 := changes.foldl
        (fun ls c => if cid2 = some c.task_id then applyFlipBack ls i c.action else ls)
        lines
      updateTrackerGo changes fuel (i + 1) cid2 lines2
    else lines

/-- Sync.update_tracker on the tracker file's lines. -/
def Sync.update_tracker (changes : List UIChange) (lines : List String) : List String :=
  updateTrackerGo changes lines.length 0 none lines

/-- The bounded forward scan for j in range(i, min(i+10, len(lines))) for an
existing github: line. -/
def findGithubIdx (lines : List String) : Nat → Nat → Option Nat
  | _, 0 => none
  | start, k + 1 =>
    if start < lines.length then
      if isGithubLine (lines.getD start "") then some start
      else findGithubIdx lines (start + 1) k
    else none

/-- Overwrite an existing github: line within the 10-line window starting at
the id line; when none exists the lines are returned unchanged. -/
def overwriteGithub (lines : List String) (i n : Nat) : List String :=
  match findGithubIdx lines i 10 with
  | some j => lines.set j ("  github: " ++ toString n)
  | none => lines

/-- The line loop of Sync.update_tracker_github_field; it stops at the first
line where the current id equals the requested task id. -/
def updateTrackerGithubFieldGo (task_id : String) (n : Nat) :
    Nat → Nat → Option String → List String → List String
  | 0, _, _, lines => lines
  | fuel + 1, i, cid, lines =>
    if i < lines.length then
      let cid2 :=
        match matchIdValue (lines.getD i "") with
        | some v => some v
        | none => cid
      if cid2 = some task_id then overwriteGithub lines i n
      else updateTrackerGithubFieldGo task_id n fuel (i + 1) cid2 lines
    else lines

/-- Sync.update_tracker_github_field on the tracker file's lines. -/
def Sync.update_tracker_github_field (task_id : String) (n : Nat)
    (lines : List String) : List String :=
  updateTrackerGithubFieldGo task_id n lines.length 0 none lines

/-- Modelled from the spec: a task's block runs from its task line until the
next task or heading line, every line of the region included.  Used to state
the format-preservation claim about raw_lines. -/
def specBlocksGo : List String → Option (List String) → List (List String)
  | [], none => []
  | [], some b => [b]
  | l :: ls, cur =>
    if (matchTask l).isSome then
      (match cur with | some b => [b] | none => []) ++ specBlocksGo ls (some [l])
    else if (matchSection l).isSome then
      (match cur with | some b => [b] | none => []) ++ specBlocksGo ls none
    else
      match cur with
      | some b => specBlocksGo ls (some (b ++ [l]))
      | none => specBlocksGo ls none

/-- Modelled from the spec: the blocks of a tracker file. -/
def specBlocks (content : String) : List (List String) :=
  specBlocksGo (pySplitChar '\n' content) none

/-- Modelled from the spec: the local label field parsed by splitting on
commas, trimming whitespace and dropping empties. -/
def specLabelSet (s : String) : Finset String :=
  (((pySplitChar ',' s).map pyStrip).filter (fun x => !(x == ""))).toFinset

/-- Modelled from the spec: the remote snapshot is consistent with a task
under the spec's comparison rules (every managed task linked and resolved,
title equal, trimmed label sets equal, milestone equal with an absent remote
milestone treated as the empty string, checked matching the closed state). -/
def specConsistentB (m : TrackerMap) (t : Task) : Bool :=
  if t.«section» = some "IDEAS" then true
  else if dictGet t.metadata "id" "" = "" then true
  else if pyStrip (dictGet t.metadata "github" "") = "" then false
  else
    match m.lookup (dictGet t.metadata "id" "") with
    | none => false
    | some issue =>
      decide (t.title = issue.title) &&
      decide (specLabelSet (dictGet t.metadata "labels" "") = issue.labels.toFinset) &&
      decide (dictGet t.metadata "milestone" "" = issue.milestone.getD "") &&
      (t.checked == (issue.state == "closed"))

/-- Consistency under the comparison rules the code actually applies: raw
comma-split label set equality, the remote milestone present and equal to
the local field value, title equality and checked matching the closed state. -/
def codeConsistentB (m : TrackerMap) (t : Task) : Bool :=
  if t.«section» = some "IDEAS" then true
  else if dictGet t.metadata "id" "" = "" then true
  else if pyStrip (dictGet t.metadata "github" "") = "" then false
  else
    match m.lookup (dictGet t.metadata "id" "") with
    | none => false
    | some issue =>
      decide (t.title = issue.title) &&
      decide (((pySplitChar ',' (dictGet t.metadata "labels" "")).toFinset : Finset String)
                = issue.labels.toFinset) &&
      decide (issue.milestone = some (dictGet t.metadata "milestone" "")) &&
      (t.checked == (issue.state == "closed"))

/-- A line of a tracker file that is structural for the parser: a task line,
an indented metadata line, or a blank line (and never a section heading). -/
def structuralLine (l : String) : Prop :=
  matchSection l = none ∧
    ((matchTask l).isSome = true ∨ (matchField l).isSome = true ∨ isBlank l = true)

instance (l : String) : Decidable (structuralLine l) := by
  unfold structuralLine
  infer_instance

/-- Fixture: a pending task (id set, no github field yet) and its file lines. -/
def c1Lines : List String := ["- [ ] Task A", "  id: T1"]

/-- Fixture: the parsed record of the c1Lines file. -/
def c1Task : Task :=
  Task.mk false "Task A" none [("id", "T1")] ["- [ ] Task A", "  id: T1"]

/-- Fixture: a linked task whose labels field has embedded spaces. -/
def exTaskC2 : Task :=
  Task.mk false "A" none
    [("id", "T2"), ("github", "1"), ("labels", "a, b, a"), ("milestone", "v1")] []

/-- Fixture: the remote issue matching exTaskC2 with labels a and b. -/
def exIssueC2 : Issue := Issue.mk 1 "A" "open" ["a", "b"] (some "v1") "n"

/-- Fixture: tracker map resolving T2 to exIssueC2. -/
def exMapC2 : TrackerMap := [("T2", exIssueC2)]

/-- Fixture: a linked task with no milestone field. -/
def exTaskC3 : Task :=
  Task.mk false "A" none [("id", "T3x"), ("github", "2"), ("labels", "x")] []

/-- Fixture: the remote issue matching exTaskC3 with no milestone. -/
def exIssueC3 : Issue := Issue.mk 2 "A" "open" ["x"] none "n"

/-- Fixture: tracker map resolving T3x to exIssueC3. -/
def exMapC3 : TrackerMap := [("T3x", exIssueC3)]

/-- Fixture: a linked task with neither labels nor milestone field. -/
def exTaskC4 : Task := Task.mk false "A" none [("id", "T4"), ("github", "42")] []

/-- Fixture: tracker map resolving T4 to a matching unlabeled issue. -/
def exMapC4 : TrackerMap := [("T4", Issue.mk 42 "A" "open" [] none "n")]

/-- Fixture: a checked linked task consistent with its remote issue. -/
def exTaskC4w : Task :=
  Task.mk true "A" none
    [("id", "T5"), ("github", "7"), ("labels", "a,b"), ("milestone", "v1")] []

/-- Fixture: tracker map resolving T5 to a code-consistent closed issue. -/
def exMapC4w : TrackerMap := [("T5", Issue.mk 7 "A" "closed" ["b", "a"] (some "v1") "n")]

/-- Fixture: the tracker file of scenario C with a second task after T3. -/
def c6Content : String := "- [ ] A\n  id: T3\n- [ ] B\n\n"

/-- Fixture: the same file as read line by line by the rewriter. -/
def c6Lines : List String := ["- [ ] A", "  id: T3", "- [ ] B", ""]

/-- Fixture: tracker map resolving T3 to a closed issue. -/
def c6Map : TrackerMap := [("T3", Issue.mk 3 "A" "closed" [] none "n3")]

/-- Fixture: a file whose task block is followed by a heading and blank line. -/
def c7Content : String := "- [ ] A\n## S\n\n- [ ] B"

/-- Fixture: a heading-free structural tracker file. -/
def c7Witness : String := "- [ ] A\n  id: T1\n\n- [x] B"

/-- Fixture: a managed task whose id resolves to no remote issue. -/
def exTaskC8 : Task := Task.mk false "A" none [("id", "T9"), ("github", "42")] []

/-- Fixture: a linked task whose title differs from its remote issue. -/
def exTaskC9 : Task :=
  Task.mk false "A" none [("id", "T6"), ("github", "9"), ("milestone", "")] []

/-- Fixture: tracker map resolving T6 to an issue titled B. -/
def exMapC9 : TrackerMap := [("T6", Issue.mk 9 "B" "open" [""] (some "") "n")]

/-- C1 (code bug witness): for the pending task T1 with no github: line the
diff engine does emit one create change, but after the create the rewriter
returns the file unchanged — no github: line is inserted, so the assigned
issue number 7 is never persisted. -/
theorem github_field_not_inserted_when_absent :
    TrackerParser.parse "- [ ] Task A\n  id: T1" = [c1Task] ∧
    Sync.compute_diff_changes [c1Task] [] = [Change.create c1Task "T1"] ∧
    Sync.update_tracker_github_field "T1" 7 c1Lines = c1Lines ∧
    c1Lines.all (fun l => !(isGithubLine l)) = true := by decide

/-- C5 (counterexample): an update change whose update set contains the
milestone field, with a milestone title that does not resolve in the
milestone map, submits a patch with no milestone at all — the field listed
in the change is dropped from the remote call. -/
theorem update_drops_unresolved_milestone :
    (Updates.mk none none (some "v1") none).milestone = some "v1" ∧
    (Sync.update_issue_on_github [] (Updates.mk none none (some "v1") none)).milestone
      = none := by decide

/-- C5 (amended): the patch submitted by the push executor for an update
change omits every field absent from the change's update set (and never
sends a body); a present labels list is always submitted; a present title
or state is submitted exactly when non-empty; a present milestone is
submitted exactly when its title resolves in the milestone map. -/
theorem update_issue_patch_characterization (mm : List (String × Nat)) (u : Updates) :
    (Sync.update_issue_on_github mm u).body = none ∧
    (Sync.update_issue_on_github mm u).labels = u.labels ∧
    (Sync.update_issue_on_github mm u).milestone = u.milestone.bind (fun name => mm.lookup name) ∧
    (Sync.update_issue_on_github mm u).title
      = u.title.bind (fun s => if s = "" then none else some s) ∧
    (Sync.update_issue_on_github mm u).state
      = u.state.bind (fun s => if s = "" then none else some s) := by
  obtain ⟨ut, ul, um, us⟩ := u
  refine ⟨rfl, rfl, ?_, ?_, ?_⟩
  · cases um <;> rfl
  · cases ut <;> rfl
  · cases us <;> rfl

/-- C6 (code bug witness): for the scenario-C file, the pull detector does
emit mark_done for T3, but applying it flips the checkbox of the following
task B as well: the backward scan keeps firing on every line while the
current id is still T3, so line 3 (the blank) rewrites task B's line. -/
theorem mark_done_rewrites_other_task :
    Sync.detect_ui_changes c6Map (TrackerParser.parse c6Content)
      = [UIChange.mk "T3" "mark_done"] ∧
    Sync.update_tracker [UIChange.mk "T3" "mark_done"] c6Lines
      = ["- [x] A", "  id: T3", "- [x] B", ""] := by decide

/-- C8: a managed task whose github field is set but whose tracker id does
not resolve in the snapshot's tracker map contributes exactly one warning
and no change, and the remaining tasks are processed exactly as if the
faulty task were absent — the run is not aborted. -/
theorem unresolved_github_task_skipped (t : Task) (rest : List Task) (m : TrackerMap)
    (hsec : ¬ t.«section» = some "IDEAS")
    (hid : ¬ dictGet t.metadata "id" "" = "")
    (hgh : ¬ pyStrip (dictGet t.metadata "github" "") = "")
    (hlk : m.lookup (dictGet t.metadata "id" "") = none) :
    Sync.compute_diff (t :: rest) m =
      ((Sync.compute_diff rest m).1,
        Warning.notFound (dictGet t.metadata "id" "") (pyStrip (dictGet t.metadata "github" ""))
          :: (Sync.compute_diff rest m).2) := by
  simp [Sync.compute_diff, Sync.compute_diff_changes, Sync.compute_diff_warnings,
    hsec, hid, hgh, hlk]

/-- C8 (witness): the unresolved task T9 yields no change and one warning. -/
theorem unresolved_github_task_skipped_witness :
    Sync.compute_diff [exTaskC8] [] = ([], [Warning.notFound "T9" "42"]) :=
  unresolved_github_task_skipped exTaskC8 [] [] (by decide) (by decide) (by decide) (by decide)

/-- The labels entry of needs_update is empty iff the raw comma-split local
label set equals the remote label set. -/
theorem needs_update_labels_eq_none_iff (t : Task) (issue : Issue) :
    (Sync.needs_update t issue).labels = none ↔
      ((pySplitChar ',' (dictGet t.metadata "labels" "")).toFinset : Finset String)
        = issue.labels.toFinset := by
  simp only [Sync.needs_update]
  split <;> simp_all

/-- The milestone entry of needs_update is empty iff the remote milestone is
present and equal to the local milestone field value. -/
theorem needs_update_milestone_eq_none_iff (t : Task) (issue : Issue) :
    (Sync.needs_update t issue).milestone = none ↔
      issue.milestone = some (dictGet t.metadata "milestone" "") := by
  simp only [Sync.needs_update]
  split <;> simp_all

/-- A non-empty labels entry forces the needs_update dict to be non-empty. -/
theorem isEmpty_false_of_labels (u : Updates) (h : ¬ u.labels = none) :
    u.isEmpty = false := by
  obtain ⟨ut, ul, um, us⟩ := u
  cases ul with
  | none => simp at h
  | some v => simp [Updates.isEmpty]

/-- A non-empty milestone entry forces the needs_update dict to be non-empty. -/
theorem isEmpty_false_of_milestone (u : Updates) (h : ¬ u.milestone = none) :
    u.isEmpty = false := by
  obtain ⟨ut, ul, um, us⟩ := u
  cases um with
  | none => simp at h
  | some v => simp [Updates.isEmpty]

/-- An empty needs_update dict has no labels entry. -/
theorem labels_none_of_isEmpty (u : Updates) (h : u.isEmpty = true) : u.labels = none := by
  obtain ⟨ut, ul, um, us⟩ := u
  simp [Updates.isEmpty, Bool.and_eq_true, Option.isNone_iff_eq_none] at h
  exact h.1.1.2

/-- An empty needs_update dict has no milestone entry. -/
theorem milestone_none_of_isEmpty (u : Updates) (h : u.isEmpty = true) : u.milestone = none := by
  obtain ⟨ut, ul, um, us⟩ := u
  simp [Updates.isEmpty, Bool.and_eq_true, Option.isNone_iff_eq_none] at h
  exact h.1.2

/-- For a managed linked resolved singleton task list, the diff reduces to
the needs_update branch. -/
theorem compute_diff_changes_singleton (t : Task) (m : TrackerMap) (issue : Issue)
    (hsec : ¬ t.«section» = some "IDEAS")
    (hid : ¬ dictGet t.metadata "id" "" = "")
    (hgh : ¬ pyStrip (dictGet t.metadata "github" "") = "")
    (hlk : m.lookup (dictGet t.metadata "id" "") = some issue) :
    Sync.compute_diff_changes [t] m =
      (if (Sync.needs_update t issue).isEmpty then []
       else [Change.update (dictGet t.metadata "id" "") issue.number (Sync.needs_update t issue)]) := by
  simp [Sync.compute_diff_changes, hsec, hid, hgh, hlk]

/-- C2 (counterexample): the spec's trimmed label set for "a, b, a" equals
the remote set containing a and b, so the claim predicts no labels update;
the diff engine nevertheless emits an update change carrying a labels entry,
because the code compares the untrimmed comma-split fragments. -/
theorem labels_trim_counterexample :
    specLabelSet "a, b, a" = exIssueC2.labels.toFinset ∧
    dictGet exTaskC2.metadata "labels" "" = "a, b, a" ∧
    Sync.compute_diff_changes [exTaskC2] exMapC2
      = [Change.update "T2" 1 (Updates.mk none (some ["a", " b", " a"]) none none)] := by decide

/-- C2 (amended): for a managed linked task resolved to a remote issue, the
diff engine emits a labels update iff the set of raw comma-split components
of the local labels field — with no whitespace trimming and empty components
retained — differs from the remote label set. -/
theorem compute_diff_labels_update_iff (t : Task) (m : TrackerMap) (issue : Issue)
    (hsec : ¬ t.«section» = some "IDEAS")
    (hid : ¬ dictGet t.metadata "id" "" = "")
    (hgh : ¬ pyStrip (dictGet t.metadata "github" "") = "")
    (hlk : m.lookup (dictGet t.metadata "id" "") = some issue) :
    (∃ c ∈ Sync.compute_diff_changes [t] m, ¬ c.labelsUpdate = none) ↔
      ¬ ((pySplitChar ',' (dictGet t.metadata "labels" "")).toFinset : Finset String)
          = issue.labels.toFinset := by
  rw [compute_diff_changes_singleton t m issue hsec hid hgh hlk,
    ← needs_update_labels_eq_none_iff t issue]
  constructor
  · rintro ⟨c, hc, hl⟩
    split at hc
    · simp at hc
    · simp only [List.mem_singleton] at hc
      subst hc
      simpa [Change.labelsUpdate] using hl
  · intro h
    have he : (Sync.needs_update t issue).isEmpty = false := isEmpty_false_of_labels _ h
    refine ⟨Change.update (dictGet t.metadata "id" "") issue.number (Sync.needs_update t issue),
      ?_, ?_⟩
    · simp [he]
    · simpa [Change.labelsUpdate] using h

/-- C2 (amended, witness): for the task T2 with labels "a, b, a" against
remote labels a and b the equivalence holds concretely. -/
theorem compute_diff_labels_update_iff_witness :
    (∃ c ∈ Sync.compute_diff_changes [exTaskC2] exMapC2, ¬ c.labelsUpdate = none) ↔
      ¬ ((pySplitChar ',' (dictGet exTaskC2.metadata "labels" "")).toFinset : Finset String)
          = exIssueC2.labels.toFinset :=
  compute_diff_labels_update_iff exTaskC2 exMapC2 exIssueC2
    (by decide) (by decide) (by decide) (by decide)

/-- C3 (counterexample): the local milestone field is absent (empty string)
and the remote issue has no milestone, so the claim predicts no milestone
update; the diff engine nevertheless emits an update change carrying the
empty milestone value, because an absent remote milestone is stored as None
and compares unequal to every string. -/
theorem milestone_absent_counterexample :
    dictGet exTaskC3.metadata "milestone" "" = exIssueC3.milestone.getD "" ∧
    Sync.compute_diff_changes [exTaskC3] exMapC3
      = [Change.update "T3x" 2 (Updates.mk none none (some "") none)] := by decide

/-- C3 (amended): for a managed linked task resolved to a remote issue, the
diff engine emits a milestone update iff the remote milestone — None when
the issue has no milestone — is not exactly the local milestone field value;
in particular an issue without a milestone always triggers an update. -/
theorem compute_diff_milestone_update_iff (t : Task) (m : TrackerMap) (issue : Issue)
    (hsec : ¬ t.«section» = some "IDEAS")
    (hid : ¬ dictGet t.metadata "id" "" = "")
    (hgh : ¬ pyStrip (dictGet t.metadata "github" "") = "")
    (hlk : m.lookup (dictGet t.metadata "id" "") = some issue) :
    (∃ c ∈ Sync.compute_diff_changes [t] m, ¬ c.milestoneUpdate = none) ↔
      ¬ issue.milestone = some (dictGet t.metadata "milestone" "") := by
  rw [compute_diff_changes_singleton t m issue hsec hid hgh hlk,
    ← needs_update_milestone_eq_none_iff t issue]
  constructor
  · rintro ⟨c, hc, hl⟩
    split at hc
    · simp at hc
    · simp only [List.mem_singleton] at hc
      subst hc
      simpa [Change.milestoneUpdate] using hl
  · intro h
    have he : (Sync.needs_update t issue).isEmpty = false := isEmpty_false_of_milestone _ h
    refine ⟨Change.update (dictGet t.metadata "id" "") issue.number (Sync.needs_update t issue),
      ?_, ?_⟩
    · simp [he]
    · simpa [Change.milestoneUpdate] using h

/-- C3 (amended, witness): for the task T3x with no milestone field against
a remote issue without a milestone the equivalence holds concretely. -/
theorem compute_diff_milestone_update_iff_witness :
    (∃ c ∈ Sync.compute_diff_changes [exTaskC3] exMapC3, ¬ c.milestoneUpdate = none) ↔
      ¬ exIssueC3.milestone = some (dictGet exTaskC3.metadata "milestone" "") :=
  compute_diff_milestone_update_iff exTaskC3 exMapC3 exIssueC3
    (by decide) (by decide) (by decide) (by decide)

/-- A code-consistent resolved task has an empty needs_update dict. -/
theorem needs_update_isEmpty_of_consistent (t : Task) (issue : Issue)
    (hti : t.title = issue.title)
    (hlab : ((pySplitChar ',' (dictGet t.metadata "labels" "")).toFinset : Finset String)
      = issue.labels.toFinset)
    (hmil : issue.milestone = some (dictGet t.metadata "milestone" ""))
    (hst : t.checked = (issue.state == "closed")) :
    (Sync.needs_update t issue).isEmpty = true := by
  by_cases hcl : issue.state = "closed"
  · have hck : t.checked = true := by simp [hcl] at hst; exact hst
    simp [Sync.needs_update, Updates.isEmpty, hti, hlab, hmil, hcl, hck]
  · have hck : t.checked = false := by
      rw [hst]
      simp [hcl]
    simp [Sync.needs_update, Updates.isEmpty, hti, hlab, hmil, hcl, hck]

/-- C4 (counterexample): the task T4 with no labels and no milestone field
is consistent with its remote issue under the spec's comparison rules, yet
the diff engine returns a non-empty change list, because the code compares
the untrimmed label split ({""} against the empty remote set) and the absent
remote milestone (None against the empty string). -/
theorem spec_consistent_not_idempotent :
    specConsistentB exMapC4 exTaskC4 = true ∧
    ¬ Sync.compute_diff_changes [exTaskC4] exMapC4 = [] := by decide

/-- C4 (amended): the diff engine is idempotent with respect to the
comparison rules the code actually applies: if every task is consistent
with the snapshot under codeConsistentB (managed tasks linked and resolved,
title equal, raw comma-split label set equal to the remote label set,
remote milestone present and equal to the local value, checked matching the
closed state), the change list is empty. -/
theorem compute_diff_empty_of_code_consistent (tasks : List Task) (m : TrackerMap)
    (h : ∀ t ∈ tasks, codeConsistentB m t = true) :
    Sync.compute_diff_changes tasks m = [] := by
  induction tasks with
  | nil => rfl
  | cons t rest ih =>
    have ht := h t (List.mem_cons_self t rest)
    have hrest := ih (fun x hx => h x (List.mem_cons_of_mem t hx))
    by_cases h1 : t.«section» = some "IDEAS"
    · simp [Sync.compute_diff_changes, h1, hrest]
    by_cases h2 : dictGet t.metadata "id" "" = ""
    · simp [Sync.compute_diff_changes, h1, h2, hrest]
    by_cases h3 : pyStrip (dictGet t.metadata "github" "") = ""
    · exfalso
      simp [codeConsistentB, h1, h2, h3] at ht
    cases hlk : m.lookup (dictGet t.metadata "id" "") with
    | none =>
      exfalso
      simp [codeConsistentB, h1, h2, h3, hlk] at ht
    | some issue =>
      simp only [codeConsistentB, if_neg h1, if_neg h2, if_neg h3, hlk,
        Bool.and_eq_true, decide_eq_true_eq, beq_iff_eq] at ht
      have hnu := needs_update_isEmpty_of_consistent t issue
        ht.1.1.1 ht.1.1.2 ht.1.2 ht.2
      simp [Sync.compute_diff_changes, h1, h2, h3, hlk, hnu, hrest]

/-- C4 (amended, witness): the code-consistent task T5 yields no change. -/
theorem compute_diff_empty_of_code_consistent_witness :
    Sync.compute_diff_changes [exTaskC4w] exMapC4w = [] :=
  compute_diff_empty_of_code_consistent [exTaskC4w] exMapC4w (by decide)

/-- C9: every update change the diff engine emits carries a non-empty
update set. -/
theorem update_changes_nonempty (tasks : List Task) (m : TrackerMap)
    (tid : String) (n : Nat) (u : Updates)
    (h : Change.update tid n u ∈ Sync.compute_diff_changes tasks m) :
    u.isEmpty = false := by
  induction tasks with
  | nil => simp [Sync.compute_diff_changes] at h
  | cons t rest ih =>
    rw [Sync.compute_diff_changes] at h
    split at h
    · exact ih h
    · split at h
      · exact ih h
      · split at h
        · rcases List.mem_cons.mp h with h1 | h1
          · cases h1
          · exact ih h1
        · split at h
          · exact ih h
          next issue hne =>
            split at h
            · exact ih h
            next hnu =>
              rcases List.mem_cons.mp h with h1 | h1
              · cases h1
                simpa using hnu
              · exact ih h1

/-- C9 (witness): the update emitted for the title-mismatched task T6 has a
non-empty update set. -/
theorem update_changes_nonempty_witness :
    (Updates.mk (some "A") none none none).isEmpty = false :=
  update_changes_nonempty [exTaskC9] exMapC9 "T6" 9
    (Updates.mk (some "A") none none none) (by decide)

/-- A mark_done action for an identifier can only come from a task whose
identifier resolves to a closed issue. -/
theorem mem_detect_done (m : TrackerMap) (tasks : List Task) (tid : String)
    (h : UIChange.mk tid "mark_done" ∈ Sync.detect_ui_changes m tasks) :
    ∃ issue, m.lookup tid = some issue ∧ issue.state = "closed" := by
  induction tasks with
  | nil => simp [Sync.detect_ui_changes] at h
  | cons t rest ih =>
    rw [Sync.detect_ui_changes] at h
    split at h
    · exact ih h
    · split at h
      · exact ih h
      next issue hlk =>
        split at h
        next hcond =>
          rcases List.mem_cons.mp h with h1 | h1
          · cases h1
            exact ⟨issue, hlk, hcond.1⟩
          · exact ih h1
        · split at h
          · rcases List.mem_cons.mp h with h1 | h1
            · injection h1 with ha hb
              exact absurd hb (by decide)
            · exact ih h1
          · exact ih h

/-- A mark_todo action for an identifier can only come from a task whose
identifier resolves to an open issue. -/
theorem mem_detect_todo (m : TrackerMap) (tasks : List Task) (tid : String)
    (h : UIChange.mk tid "mark_todo" ∈ Sync.detect_ui_changes m tasks) :
    ∃ issue, m.lookup tid = some issue ∧ issue.state = "open" := by
  induction tasks with
  | nil => simp [Sync.detect_ui_changes] at h
  | cons t rest ih =>
    rw [Sync.detect_ui_changes] at h
    split at h
    · exact ih h
    · split at h
      · exact ih h
      next issue hlk =>
        split at h
        · rcases List.mem_cons.mp h with h1 | h1
          · injection h1 with ha hb
            exact absurd hb (by decide)
          · exact ih h1
        · split at h
          next hcond =>
            rcases List.mem_cons.mp h with h1 | h1
            · cases h1
              exact ⟨issue, hlk, hcond.1⟩
            · exact ih h1
          · exact ih h

/-- C10: the pull detector emits at most one action per task record, and it
never emits both a mark_done and a mark_todo action for the same task
identifier in one run (the same identifier resolves to one issue, whose
state cannot be closed and open at once). -/
theorem detect_ui_changes_at_most_one_action (m : TrackerMap) (tasks : List Task) :
    (Sync.detect_ui_changes m tasks).length ≤ tasks.length ∧
    ∀ tid : String,
      (decide (UIChange.mk tid "mark_done" ∈ Sync.detect_ui_changes m tasks) &&
       decide (UIChange.mk tid "mark_todo" ∈ Sync.detect_ui_changes m tasks)) = false := by
  constructor
  · induction tasks with
    | nil => simp [Sync.detect_ui_changes]
    | cons t rest ih =>
      rw [Sync.detect_ui_changes]
      split
      · exact Nat.le_succ_of_le ih
      · split
        · exact Nat.le_succ_of_le ih
        · split
          · simpa using Nat.succ_le_succ ih
          · split
            · simpa using Nat.succ_le_succ ih
            · exact Nat.le_succ_of_le ih
  · intro tid
    by_cases hd : UIChange.mk tid "mark_done" ∈ Sync.detect_ui_changes m tasks
    · by_cases ht : UIChange.mk tid "mark_todo" ∈ Sync.detect_ui_changes m tasks
      · exfalso
        obtain ⟨i1, hl1, hs1⟩ := mem_detect_done m tasks tid hd
        obtain ⟨i2, hl2, hs2⟩ := mem_detect_todo m tasks tid ht
        rw [hl1] at hl2
        cases hl2
        exact absurd (hs1.symm.trans hs2) (by decide)
      · simp [ht]
    · simp [hd]

/-- Over structural lines the parser loop is lossless: starting with a task
under construction, the concatenated raw_lines of the parsed tasks are the
accumulated raw_lines followed by all remaining lines. -/
theorem parseGo_join (ls : List String) : ∀ (sec : Option String) (t : Task),
    (∀ l ∈ ls, structuralLine l) →
    ((parseGo ls sec (some t)).map Task.raw_lines).flatten = t.raw_lines ++ ls := by
  induction ls with
  | nil =>
    intro sec t _
    simp [parseGo]
  | cons l ls ih =>
    intro sec t h
    obtain ⟨hsec, hkind⟩ := h l (List.mem_cons_self l ls)
    have htail : ∀ x ∈ ls, structuralLine x := fun x hx => h x (List.mem_cons_of_mem l hx)
    cases hmt : matchTask l with
    | some p =>
      obtain ⟨ck, ti⟩ := p
      simp only [parseGo, hsec, hmt]
      rw [List.map_append, List.flatten_append, ih sec (mkTask ck ti sec l) htail]
      simp [mkTask]
    | none =>
      cases hmf : matchField l with
      | some p =>
        obtain ⟨k, v⟩ := p
        simp only [parseGo, hsec, hmt, hmf]
        rw [ih sec (addField t k v l) htail]
        simp [addField]
      | none =>
        have hb : isBlank l = true := by
          rcases hkind with hk | hk | hk
          · rw [hmt] at hk
            simp at hk
          · rw [hmf] at hk
            simp at hk
          · exact hk
        simp only [parseGo, hsec, hmt, hmf, hb, if_true]
        rw [ih sec (addBlank t l) htail]
        simp [addBlank]

/-- C7 (counterexample): in the file "- [ ] A\n## S\n\n- [ ] B" the blank
line after the heading still belongs to task A's raw_lines although task
A's block ends at the heading, so the parsed backing lines do not reproduce
the blocks of the original file. -/
theorem raw_lines_block_counterexample :
    ¬ (TrackerParser.parse c7Content).map Task.raw_lines = specBlocks c7Content ∧
    (TrackerParser.parse c7Content).map Task.raw_lines = [["- [ ] A", ""], ["- [ ] B"]] ∧
    specBlocks c7Content = [["- [ ] A"], ["- [ ] B"]] := by decide

/-- C7 (amended): for files whose lines are all structural — task lines,
indented metadata lines or blank lines, never headings or free-form text —
and which start at a task line, parsing is format-preserving: the parsed
tasks' raw_lines concatenate to exactly the file's lines, so rewriting
nothing reproduces the file byte for byte. -/
theorem parse_raw_lines_round_trip (content : String)
    (hstruct : ∀ l ∈ pySplitChar '\n' content, structuralLine l)
    (hhead : (matchTask ((pySplitChar '\n' content).headD "")).isSome = true) :
    ((TrackerParser.parse content).map Task.raw_lines).flatten = pySplitChar '\n' content := by
  unfold TrackerParser.parse
  cases hls : pySplitChar '\n' content with
  | nil =>
    rw [hls] at hhead
    exact absurd hhead (by decide)
  | cons l0 tl =>
    rw [hls] at hstruct hhead
    simp only [List.headD_cons] at hhead
    obtain ⟨hsec0, _⟩ := hstruct l0 (List.mem_cons_self l0 tl)
    obtain ⟨⟨ck, ti⟩, hmt0⟩ := Option.isSome_iff_exists.mp hhead
    simp only [hls, parseGo, hsec0, hmt0]
    rw [List.map_append, List.flatten_append,
      parseGo_join tl none (mkTask ck ti none l0)
        (fun x hx => hstruct x (List.mem_cons_of_mem l0 hx))]
    simp [mkTask]

/-- C7 (amended, witness): the structural file "- [ ] A\n  id: T1\n\n- [x] B"
round-trips byte-identically through the parser's raw_lines. -/
theorem parse_raw_lines_round_trip_witness :
    ((TrackerParser.parse c7Witness).map Task.raw_lines).flatten = pySplitChar '\n' c7Witness :=
  parse_raw_lines_round_trip c7Witness (by decide) (by decide)

end Tracker
